import Mathlib

/-!
Shallow embedding of the raster spatial-alignment and stacking engine of
`pyeo/core.py` (functions `get_raster_bounds`, `point_to_pixel_coordinates`,
`pixel_bounds_from_polygon`, `multiple_union`, `multiple_intersection`,
`get_combined_polygon`, `create_new_image_from_polygon`, `stack_images`,
`combine_masks`, `create_new_stacks` and their helpers), together with
theorems settling the frozen claims about that code.

Modelling conventions:
* Geographic coordinates and geotransform coefficients are rationals (`ℚ`);
  the Python source computes with floats, whose rounding is not modelled.
* OGR geometries reachable in the modelled code paths are finite unions of
  axis-aligned rectangles, represented as `List QRect`; the empty list is
  OGR's empty geometry.
* Fallible code returns `Except CoreError`; each Python `raise` (and each
  GDAL failure that aborts the function) maps to a distinct error value.
* File paths, GDAL driver/format/datatype arguments and logging are I/O
  concerns outside the modelled core; rasters are passed by value.
-/

/-- The six GDAL geotransform coefficients, indexed exactly as the source
indexes `raster.GetGeoTransform()`: `gt0` origin x, `gt1` pixel width,
`gt2` row rotation, `gt3` origin y, `gt4` column rotation, `gt5` pixel
height (negative in the north-up convention). -/
structure GeoTransform where
  gt0 : ℚ
  gt1 : ℚ
  gt2 : ℚ
  gt3 : ℚ
  gt4 : ℚ
  gt5 : ℚ
deriving Repr, DecidableEq

/-- An axis-aligned rectangle given by two opposite corners `(xA, yA)` and
`(xB, yB)`; corners may arrive in any order, operations normalise. -/
structure QRect where
  xA : ℚ
  yA : ℚ
  xB : ℚ
  yB : ℚ
deriving Repr, DecidableEq

def QRect.xMin (r : QRect) : ℚ := min r.xA r.xB
def QRect.xMax (r : QRect) : ℚ := max r.xA r.xB
def QRect.yMin (r : QRect) : ℚ := min r.yA r.yB
def QRect.yMax (r : QRect) : ℚ := max r.yA r.yB

/-- An OGR geometry as reachable in the modelled code paths: a finite union
of axis-aligned rectangles. `[]` is the empty geometry. -/
abbrev Region : Type := List QRect

/-- Intersection of two rectangles: the overlap rectangle when they meet
(possibly degenerate, matching OGR returning a line or point for touching
rectangles), `none` when they are disjoint. -/
def rectIntersection (a b : QRect) : Option QRect :=
  let xlo := max a.xMin b.xMin
  let xhi := min a.xMax b.xMax
  let ylo := max a.yMin b.yMin
  let yhi := min a.yMax b.yMax
  if xlo ≤ xhi ∧ ylo ≤ yhi then some ⟨xlo, ylo, xhi, yhi⟩ else none

/-- `ogr.Geometry.Intersection` on the modelled geometries: pairwise
rectangle overlaps. -/
def regionIntersection (a b : Region) : Region :=
  (a.map (fun ra => b.filterMap (fun rb => rectIntersection ra rb))).flatten

/-- `ogr.Geometry.Union` on the modelled geometries: the pieces of both
operands (a multipolygon-like collection; pieces may overlap). -/
def regionUnion (a b : Region) : Region := a ++ b

/-- One rectangle minus another: the up-to-four disjoint rectangles that
remain of `a` after removing its overlap with `b`. -/
def rectDifference (a b : QRect) : List QRect :=
  match rectIntersection a b with
  | none => [a]
  | some o =>
    let left : List QRect :=
      if a.xMin < o.xMin then [⟨a.xMin, a.yMin, o.xMin, a.yMax⟩] else []
    let right : List QRect :=
      if o.xMax < a.xMax then [⟨o.xMax, a.yMin, a.xMax, a.yMax⟩] else []
    let bottom : List QRect :=
      if a.yMin < o.yMin then [⟨o.xMin, a.yMin, o.xMax, o.yMin⟩] else []
    let top : List QRect :=
      if o.yMax < a.yMax then [⟨o.xMin, o.yMax, o.xMax, a.yMax⟩] else []
    left ++ right ++ bottom ++ top

/-- `ogr.Geometry.Difference` on the modelled geometries. -/
def regionDifference (a b : Region) : Region :=
  b.foldl (fun acc rb => (acc.map (fun ra => rectDifference ra rb)).flatten) a

/-- `ogr.Geometry.Simplify(0)`: topology-preserving simplification with zero
tolerance, the identity on the rectangle collections reachable here. -/
def regionSimplify0 (a : Region) : Region := a

/-- `ogr.Geometry.GetArea`: total area of the pieces (the reachable
difference chains keep pieces disjoint, so the sum is the true area). -/
def regionArea (a : Region) : ℚ :=
  (a.map (fun r => (r.xMax - r.xMin) * (r.yMax - r.yMin))).sum

/-- `ogr.Geometry.GetEnvelope`, returning `(minX, maxX, minY, maxY)`;
OGR yields `(0, 0, 0, 0)` for an empty geometry. -/
def regionEnvelope (a : Region) : ℚ × ℚ × ℚ × ℚ :=
  match a with
  | [] => (0, 0, 0, 0)
  | r :: rs =>
    rs.foldl
      (fun e s =>
        (min e.1 s.xMin, max e.2.1 s.xMax, min e.2.2.1 s.yMin, max e.2.2.2 s.yMax))
      (r.xMin, r.xMax, r.yMin, r.yMax)

/-- `ogr.Geometry.Boundary`: we only ever take the envelope of a boundary,
and the boundary of a region has the region's envelope, so the region
itself stands in for its boundary. -/
def regionBoundary (a : Region) : Region := a

/-- In the GDAL 2 Python bindings `ogr.Geometry` defines neither a boolean
conversion nor a length, so `if image_poly.Intersection(new_data_poly):`
is true for every geometry object the call returns, even an empty one. -/
def ogrGeometryTruthy (_ : Region) : Bool := true

/-- The duck-typed `point` argument of `point_to_pixel_coordinates`: an
`(x, y)` tuple or list, a WKT string (already parsed to its coordinates by
`ogr.CreateGeometryFromWkt`, an external call), or an `ogr.Geometry`
point. -/
inductive PointInput where
  | coords (x y : ℚ)
  | wkt (x y : ℚ)
  | geom (x y : ℚ)
deriving Repr, DecidableEq

/-- The `x_geo` the `isinstance` chain of the source extracts. -/
def PointInput.xGeo : PointInput → ℚ
  | .coords x _ => x
  | .wkt x _ => x
  | .geom x _ => x

/-- The `y_geo` the `isinstance` chain of the source extracts. -/
def PointInput.yGeo : PointInput → ℚ
  | .coords _ y => y
  | .wkt _ y => y
  | .geom _ y => y

/-- A GDAL raster dataset as the modelled code observes it: sizes, band
count, geotransform, projection string, and the band-major pixel buffer
returned by `GetVirtualMemArray` (band, row, column). -/
structure Raster where
  rasterXSize : ℕ
  rasterYSize : ℕ
  rasterCount : ℕ
  geoTransform : GeoTransform
  projection : String
  buffer : List (List (List ℤ))
deriving Repr, DecidableEq

/-- `get_raster_bounds` (core.py:706): bounding rectangle of a raster from
its geotransform; the ring runs `(tlx, tly)`, `(tlx+width, tly)`,
`(tlx+width, tly-height)`, `(tlx, tly-height)` with
`width = gt1 * RasterXSize` and `height = gt5 * RasterYSize * (-1)`. -/
def get_raster_bounds (raster : Raster) : Region :=
  let geotrans := raster.geoTransform
  let top_left_x := geotrans.gt0
  let top_left_y := geotrans.gt3
  let width := geotrans.gt1 * (raster.rasterXSize : ℚ)
  let height := geotrans.gt5 * (raster.rasterYSize : ℚ) * (-1)
  [⟨top_left_x, top_left_y, top_left_x + width, top_left_y - height⟩]

/-- `point_to_pixel_coordinates` (core.py:582): inverse affine mapping with
`floor` on both axes; the `oob_fail` parameter is accepted but never read
by the body. -/
def point_to_pixel_coordinates (raster : Raster) (point : PointInput)
    (_oob_fail : Bool) : ℤ × ℤ :=
  let x_geo := point.xGeo
  let y_geo := point.yGeo
  let gt := raster.geoTransform
  let x_pixel : ℤ := ⌊(x_geo - gt.gt0) / gt.gt1⌋
  let y_pixel : ℤ := ⌊(y_geo - gt.gt3) / gt.gt5⌋
  (x_pixel, y_pixel)

/-- `get_poly_intersection` (core.py:691). -/
def get_poly_intersection (poly1 poly2 : Region) : Region :=
  regionIntersection poly1 poly2

/-- `multiple_union` (core.py:555); `polygons[0]` raises `IndexError` on an
empty list, modelled as `none`. -/
def multiple_union (polygons : List Region) : Option Region :=
  match polygons with
  | [] => none
  | p :: rest => some (regionSimplify0 (rest.foldl regionUnion p))

/-- `multiple_intersection` (core.py:603); `polygons[0]` raises
`IndexError` on an empty list, modelled as `none`. -/
def multiple_intersection (polygons : List Region) : Option Region :=
  match polygons with
  | [] => none
  | p :: rest => some (regionSimplify0 (rest.foldl regionIntersection p))

/-- The failure modes of the modelled functions. `noOverlap` is modelled
from the spec: the error taxonomy of spec §7 names a `NoOverlap` condition
for an empty intersect-mode combined polygon; the source defines no such
signal, the constructor exists so claims about it can be stated. -/
inductive CoreError where
  | stackImagesException (msg : String)
  | createNewStacksException (msg : String)
  | invalidGeometryMode
  | invalidCombinationFunc
  | indexError
  | createFailed
  | noOverlap
deriving Repr, DecidableEq

/-- `get_combined_polygon` (core.py:540). -/
def get_combined_polygon (rasters : List Raster) (geometry_mode : String) :
    Except CoreError Region :=
  let raster_bounds := rasters.map get_raster_bounds
  if geometry_mode = "intersect" then
    match multiple_intersection raster_bounds with
    | some g => .ok g
    | none => .error .indexError
  else if geometry_mode = "union" then
    match multiple_union raster_bounds with
    | some g => .ok g
    | none => .error .indexError
  else
    .error .invalidGeometryMode

/-- `pixel_bounds_from_polygon` (core.py:565): envelope of the raster-bound
and polygon intersection mapped to pixel coordinates, with the source's
final swap kludge normalising each inverted pair. -/
def pixel_bounds_from_polygon (raster : Raster) (polygon : Region) :
    ℤ × ℤ × ℤ × ℤ :=
  let raster_bounds := get_raster_bounds raster
  let intersection := get_poly_intersection raster_bounds polygon
  let bounds_geo := regionBoundary intersection
  let e := regionEnvelope bounds_geo
  let x_min_geo := e.1
  let x_max_geo := e.2.1
  let y_min_geo := e.2.2.1
  let y_max_geo := e.2.2.2
  let p_min := point_to_pixel_coordinates raster (.coords x_min_geo y_min_geo) false
  let p_max := point_to_pixel_coordinates raster (.coords x_max_geo y_max_geo) false
  let x_min_pixel := p_min.1
  let y_min_pixel := p_min.2
  let x_max_pixel := p_max.1
  let y_max_pixel := p_max.2
  let xs := if x_min_pixel ≥ x_max_pixel then (x_max_pixel, x_min_pixel)
            else (x_min_pixel, x_max_pixel)
  let ys := if y_min_pixel ≥ y_max_pixel then (y_max_pixel, y_min_pixel)
            else (y_min_pixel, y_max_pixel)
  (xs.1, xs.2, ys.1, ys.2)

/-- Python `int(...)` applied to a rational: truncation toward zero. -/
def pyInt (q : ℚ) : ℤ := if 0 ≤ q then ⌊q⌋ else ⌈q⌉

/-- `final_width_pixels = int((bounds_x_max - bounds_x_min) / x_res)` from
`create_new_image_from_polygon` (core.py:846). -/
def final_width_pixels (polygon : Region) (x_res : ℚ) : ℤ :=
  let e := regionEnvelope polygon
  pyInt ((e.2.1 - e.1) / x_res)

/-- `final_height_pixels = int((bounds_y_max - bounds_y_min) / y_res)` from
`create_new_image_from_polygon` (core.py:847). -/
def final_height_pixels (polygon : Region) (y_res : ℚ) : ℤ :=
  let e := regionEnvelope polygon
  pyInt ((e.2.2.2 - e.2.2.1) / y_res)

/-- `create_new_image_from_polygon` (core.py:841): empty image of the
extent of the input polygon. `driver.Create` rejects a width, height or
band count below 1 (returning a null dataset that aborts the caller),
modelled as `createFailed`; a fresh GDAL buffer is zero-filled (the
`nodata` parameter is an unimplemented TODO in the source). -/
def create_new_image_from_polygon (polygon : Region) (x_res y_res : ℚ)
    (bands : ℕ) (projection : String) : Except CoreError Raster :=
  let e := regionEnvelope polygon
  let bounds_x_min := e.1
  let bounds_y_max := e.2.2.2
  let w := final_width_pixels polygon x_res
  let h := final_height_pixels polygon y_res
  if w < 1 ∨ h < 1 ∨ bands < 1 then .error .createFailed
  else
    .ok
      { rasterXSize := w.toNat
        rasterYSize := h.toNat
        rasterCount := bands
        geoTransform := ⟨bounds_x_min, x_res, 0, bounds_y_max, 0, y_res * (-1)⟩
        projection := projection
        buffer :=
          List.replicate bands
            (List.replicate h.toNat (List.replicate w.toNat 0)) }

/-- Python slice `l[a:b]` for the nonnegative in-range indices the modelled
code paths produce (negative wrap-around indices are not modelled). -/
def pySlice {α : Type} (l : List α) (a b : ℤ) : List α :=
  (l.drop a.toNat).take (b - a).toNat

/-- Slice `arr[r0:r1, c0:c1]` of a 2-D numpy array. -/
def slice2D (arr : List (List ℤ)) (r0 r1 c0 c1 : ℤ) : List (List ℤ) :=
  (pySlice arr r0 r1).map (fun row => pySlice row c0 c1)

/-- Slice `arr[b0:b1, r0:r1, c0:c1]` of a 3-D numpy array. -/
def slice3D (arr : List (List (List ℤ))) (b0 b1 : ℕ) (r0 r1 c0 c1 : ℤ) :
    List (List (List ℤ)) :=
  ((arr.drop b0).take (b1 - b0)).map (fun plane => slice2D plane r0 r1 c0 c1)

/-- `np.bitwise_or` of two aligned 2-D arrays (the modelled calls have
matching shapes). -/
def bitwiseOr2D (a b : List (List ℤ)) : List (List ℤ) :=
  a.zipWith (fun ra rb => ra.zipWith Int.lor rb) b

/-- `np.bitwise_and` of two aligned 2-D arrays. -/
def bitwiseAnd2D (a b : List (List ℤ)) : List (List ℤ) :=
  a.zipWith (fun ra rb => ra.zipWith Int.land rb) b

/-- Overwrite one row of a destination buffer from column `c0` with the
values of `src`, clipped to the destination extent. -/
def writeRow (dst : List ℤ) (c0 : ℕ) (src : List ℤ) : List ℤ :=
  dst.take c0 ++ src.take (dst.length - c0) ++ dst.drop (c0 + src.length)

/-- Overwrite a rectangular window of a 2-D buffer starting at row `r0`,
column `c0` with `src` (the semantics of `np.copyto` into a basic-slice
view whose shape matches `src`). -/
def write2D (dst : List (List ℤ)) (r0 c0 : ℕ) (src : List (List ℤ)) :
    List (List ℤ) :=
  dst.enum.map (fun p =>
    if r0 ≤ p.1 ∧ p.1 - r0 < src.length then
      writeRow p.2 c0 (src.getD (p.1 - r0) [])
    else p.2)

/-- Overwrite a box of a 3-D band-major buffer starting at band `b0`, row
`r0`, column `c0` with `src`. -/
def write3D (dst : List (List (List ℤ))) (b0 r0 c0 : ℕ)
    (src : List (List (List ℤ))) : List (List (List ℤ)) :=
  dst.enum.map (fun p =>
    if b0 ≤ p.1 ∧ p.1 - b0 < src.length then
      write2D p.2 r0 c0 (src.getD (p.1 - b0) [])
    else p.2)

/-- `GetVirtualMemArray` of a single-band raster yields a 2-D array: the
raster's only band plane. -/
def getVirtualMemArray2D (raster : Raster) : List (List ℤ) :=
  raster.buffer.headD []

/-- One copy step of the `stack_images` loop (core.py:515-535), recorded
while it executes: the destination band offset `present_layer`, the band
count copied, and the destination and source pixel windows
`(x_min, x_max, y_min, y_max)`. -/
structure CopyOp where
  destBandStart : ℕ
  bandCount : ℕ
  destWindow : ℤ × ℤ × ℤ × ℤ
  srcWindow : ℤ × ℤ × ℤ × ℤ
deriving Repr, DecidableEq

/-- The per-input loop of `stack_images` (core.py:515-535): for each input
raster, compute the output-grid and input-grid pixel windows of the
combined polygon, copy the input window into the output buffer at the
running band offset `present_layer`, then advance the offset by the
input's band count. `np.expand_dims` restoring a band axis for single-band
inputs is the identity on the band-major buffers modelled here. -/
def stackLoop (rasters : List Raster) (out_raster : Raster)
    (combined_polygons : Region) (present_layer : ℕ) (ops : List CopyOp) :
    Raster × List CopyOp :=
  match rasters with
  | [] => (out_raster, ops)
  | in_raster :: rest =>
    let outw := pixel_bounds_from_polygon out_raster combined_polygons
    let inw := pixel_bounds_from_polygon in_raster combined_polygons
    let out_x_min := outw.1
    let out_y_min := outw.2.2.1
    let in_raster_view :=
      slice3D in_raster.buffer 0 in_raster.rasterCount
        inw.2.2.1 inw.2.2.2 inw.1 inw.2.1
    let buf :=
      write3D out_raster.buffer present_layer out_y_min.toNat out_x_min.toNat
        in_raster_view
    let op : CopyOp :=
      ⟨present_layer, in_raster.rasterCount, outw, inw⟩
    stackLoop rest { out_raster with buffer := buf } combined_polygons
      (present_layer + in_raster.rasterCount) (ops ++ [op])

/-- `stack_images` (core.py:494): stacks the inputs into one raster whose
resolution, projection and geotransform basis come from the first input.
The result carries the trace of copy operations the loop performed. -/
def stack_images (rasters : List Raster) (geometry_mode : String) :
    Except CoreError (Raster × List CopyOp) :=
  match rasters with
  | [] => .error (.stackImagesException "stack_images requires at least two input images")
  | [_] => .error (.stackImagesException "stack_images requires at least two input images")
  | r0 :: _ :: _ =>
    let total_layers := (rasters.map Raster.rasterCount).sum
    let projection := r0.projection
    let in_gt := r0.geoTransform
    let x_res := in_gt.gt1
    let y_res := in_gt.gt5 * (-1)
    match get_combined_polygon rasters geometry_mode with
    | .error e => .error e
    | .ok combined_polygons =>
      match create_new_image_from_polygon combined_polygons x_res y_res
          total_layers projection with
      | .error e => .error e
      | .ok out_raster => .ok (stackLoop rasters out_raster combined_polygons 0 [])

/-- The per-mask loop of `combine_masks` (core.py:821-835). The source
computes `np.bitwise_or(out_mask_view, in_mask_view)` (resp. `bitwise_and`)
and rebinds the local name `out_mask_view` to the fresh result array; the
combined values are never written back into `out_mask`'s buffer, so the
loop leaves the output raster unchanged apart from raising on an invalid
`combination_func`. -/
def combineMasksLoop (masks : List Raster) (out_mask : Raster)
    (combined_polygon : Region) (combination_func : String) :
    Except CoreError Raster :=
  match masks with
  | [] => .ok out_mask
  | in_mask :: rest =>
    let outw := pixel_bounds_from_polygon out_mask combined_polygon
    let inw := pixel_bounds_from_polygon in_mask combined_polygon
    let out_mask_view :=
      slice2D (getVirtualMemArray2D out_mask) outw.2.2.1 outw.2.2.2 outw.1 outw.2.1
    let in_mask_view :=
      slice2D (getVirtualMemArray2D in_mask) inw.2.2.1 inw.2.2.2 inw.1 inw.2.1
    if combination_func = "or" then
      let _ := bitwiseOr2D out_mask_view in_mask_view
      combineMasksLoop rest out_mask combined_polygon combination_func
    else if combination_func = "and" then
      let _ := bitwiseAnd2D out_mask_view in_mask_view
      combineMasksLoop rest out_mask combined_polygon combination_func
    else
      .error .invalidCombinationFunc

/-- `combine_masks` (core.py:804): aligns the single-band masks over their
combined polygon, allocates a one-band byte output with metadata from the
first mask, and runs the combination loop. On an empty mask list the
`polygons[0]` lookup inside `get_combined_polygon` raises `IndexError`
before `masks[0]` is ever read, so the empty case carries that error. -/
def combine_masks (masks : List Raster) (combination_func : String)
    (geometry_func : String) : Except CoreError Raster :=
  match masks with
  | [] => .error .indexError
  | m0 :: _ =>
    match get_combined_polygon masks geometry_func with
    | .error e => .error e
    | .ok combined_polygon =>
      let gt := m0.geoTransform
      let x_res := gt.gt1
      let y_res := gt.gt5 * (-1)
      let bands := 1
      let projection := m0.projection
      match create_new_image_from_polygon combined_polygon x_res y_res
          bands projection with
      | .error e => .error e
      | .ok out_mask =>
        combineMasksLoop masks out_mask combined_polygon combination_func

/-- One `.gtif` file of the image directory as `create_new_stacks` observes
it: the globbed path, the acquisition time that
`get_image_acquisition_time` parses from the filename (an external naming
concern, carried here already parsed as a chronological index), the
timestamp text `get_sen_2_image_timestamp` extracts, the raster itself and
its sibling `.msk` mask raster (derived by `get_mask_path`). -/
structure TimedRaster where
  name : String
  acquisitionTime : ℕ
  timestampText : String
  raster : Raster
  mask : Raster
deriving Repr, DecidableEq

/-- `sort_by_timestamp` (core.py:431): stable sort, newest first. -/
def sort_by_timestamp (strings : List TimedRaster) : List TimedRaster :=
  strings.mergeSort (fun a b => b.acquisitionTime ≤ a.acquisitionTime)

/-- `stack_old_and_new_images` (core.py:471): stacks the two images (the
`stack_images` default `geometry_mode="intersect"` applies), optionally
combines their masks (`combine_masks` defaults: `'or'`, `"intersect"`), and
returns the output path derived from the two timestamps. File writes are
external; failures of the nested calls abort the function. -/
def stack_old_and_new_images (old_image new_image : TimedRaster)
    (create_combined_mask : Bool) : Except CoreError String :=
  let out_path := old_image.timestampText ++ "_" ++ new_image.timestampText
  match stack_images [old_image.raster, new_image.raster] "intersect" with
  | .error e => .error e
  | .ok _ =>
    if create_combined_mask then
      match combine_masks [old_image.mask, new_image.mask] "or" "intersect" with
      | .error e => .error e
      | .ok _ => .ok (out_path ++ ".tif")
    else .ok (out_path ++ ".tif")

/-- The selection loop of `create_new_stacks` (core.py:412-421): walk the
older files newest-first; the `if image_poly.Intersection(new_data_poly):`
test is `ogrGeometryTruthy` of the intersection (always true, see there),
on success append the file, subtract its bounds from the remaining
polygon, and break as soon as the remaining area drops below the
threshold. -/
def stacksSelectLoop (files : List TimedRaster) (new_data_poly : Region)
    (threshold : ℚ) (to_be_stacked : List TimedRaster) : List TimedRaster :=
  match files with
  | [] => to_be_stacked
  | file :: rest =>
    let image_poly := get_raster_bounds file.raster
    if ogrGeometryTruthy (regionIntersection image_poly new_data_poly) then
      let stacked := to_be_stacked ++ [file]
      let remaining := regionDifference new_data_poly image_poly
      if regionArea remaining < threshold then stacked
      else stacksSelectLoop rest remaining threshold stacked
    else stacksSelectLoop rest new_data_poly threshold to_be_stacked

/-- The stacking loop of `create_new_stacks` (core.py:422-427): for each
selected file, break if its name already appears in the stack directory
listing, otherwise stack it with the newest image and collect the output
path. -/
def stacksBuildLoop (to_be_stacked : List TimedRaster)
    (stack_dir_listing : List String) (new_images : List String)
    (latest_image : TimedRaster) : Except CoreError (List String) :=
  match to_be_stacked with
  | [] => .ok new_images
  | image :: rest =>
    if stack_dir_listing.contains image.name then .ok new_images
    else
      match stack_old_and_new_images image latest_image true with
      | .error e => .error e
      | .ok out =>
        stacksBuildLoop rest stack_dir_listing (new_images ++ [out]) latest_image

/-- `create_new_stacks` (core.py:387): raises
`CreateNewStacksException("image_dir is empty")` exactly when the glob of
the image directory found no `.gtif` files; otherwise sorts newest-first,
takes the newest as the reference, selects the files to stack, and stacks
each against the newest. The directory glob and `os.listdir(stack_dir)`
are externalised as the two list parameters. The inner `[]` case is
unreachable (sorting preserves length) and carries the `IndexError` that
`safe_files[0]` would raise. -/
def create_new_stacks (safe_files : List TimedRaster)
    (stack_dir_listing : List String) (threshold : ℚ) :
    Except CoreError (List String) :=
  if safe_files.length = 0 then
    .error (.createNewStacksException "image_dir is empty")
  else
    match sort_by_timestamp safe_files with
    | [] => .error .indexError
    | latest_image :: older =>
      let new_data_poly := get_raster_bounds latest_image.raster
      let to_be_stacked := stacksSelectLoop older new_data_poly threshold []
      stacksBuildLoop to_be_stacked stack_dir_listing [] latest_image

/-- The forward (pixel → geographic) affine map of the GDAL data model
whose rearrangement the source cites in `point_to_pixel_coordinates`
(`geoOf` in the specification):
`x = gt0 + col*gt1 + row*gt2`, `y = gt3 + col*gt4 + row*gt5`. -/
def gdal_affine (gt : GeoTransform) (c r : ℤ) : ℚ × ℚ :=
  (gt.gt0 + (c : ℚ) * gt.gt1 + (r : ℚ) * gt.gt2,
   gt.gt3 + (c : ℚ) * gt.gt4 + (r : ℚ) * gt.gt5)

/-- The destination band offsets the specification prescribes for a
sequence of band counts: each input starts at the sum of all prior band
counts. -/
def bandOffsets : List ℕ → List ℕ
  | [] => []
  | c :: cs => 0 :: (bandOffsets cs).map (fun o => c + o)

/-- A single-band 3-pixel-wide, 1-pixel-high boolean mask with the given
row of values, on the unit grid with origin (0, 1). -/
def sampleMask (vals : List ℤ) : Raster :=
  { rasterXSize := 3
    rasterYSize := 1
    rasterCount := 1
    geoTransform := ⟨0, 1, 0, 1, 0, -1⟩
    projection := "EPSG:32736"
    buffer := [[vals]] }

/-- First mask of the spec scenario: `[True, True, False]`. -/
def sampleMaskA : Raster := sampleMask [1, 1, 0]

/-- Second mask of the spec scenario: `[True, False, False]`. -/
def sampleMaskB : Raster := sampleMask [1, 0, 0]

/-- Third mask of the spec scenario: `[False, True, False]`. -/
def sampleMaskC : Raster := sampleMask [0, 1, 0]

/-- A 10×10 single-band raster whose footprint starts at geographic x
coordinate `x0`, with unit pixels, top at y = 10. -/
def sampleSquare (x0 : ℚ) : Raster :=
  { rasterXSize := 10
    rasterYSize := 10
    rasterCount := 1
    geoTransform := ⟨x0, 1, 0, 10, 0, -1⟩
    projection := "EPSG:32736"
    buffer := [List.replicate 10 (List.replicate 10 7)] }

/-- Left raster of the disjoint pair: footprint x ∈ [0, 10]. -/
def sampleRasterL : Raster := sampleSquare 0

/-- Right raster of the disjoint pair: footprint x ∈ [20, 30]. -/
def sampleRasterR : Raster := sampleSquare 20

/-- A 2×2 single-band raster filled with value `v`, unit grid, top at
y = 2. -/
def sampleTile (v : ℤ) : Raster :=
  { rasterXSize := 2
    rasterYSize := 2
    rasterCount := 1
    geoTransform := ⟨0, 1, 0, 2, 0, -1⟩
    projection := "EPSG:32736"
    buffer := [[[v, v], [v, v]]] }

/-- A single timed image-directory entry (used to exercise
`create_new_stacks` with one raster and no historical rasters). -/
def sampleTimed : TimedRaster :=
  { name := "S2_20180101T112233.gtif"
    acquisitionTime := 5
    timestampText := "20180101T112233"
    raster := sampleTile 3
    mask := sampleMask [1, 1, 1] }

/-- C1: on three identically-aligned single-band masks with values
`[T,T,F]`, `[T,F,F]`, `[F,T,F]`, combining with OR is claimed to produce
`[T,T,F]`; the code instead leaves the output buffer at its creation fill
of zeros (`[F,F,F]`), because the loop rebinds the view variable to the
`np.bitwise_or` result without writing it back, contradicting the
function's own docstring. -/
theorem combine_masks_or_output_stays_zero :
    (combine_masks [sampleMaskA, sampleMaskB, sampleMaskC] "or" "intersect").toOption.map
        Raster.buffer = some [[[0, 0, 0]]] ∧
    some ([[[0, 0, 0]]] : List (List (List ℤ))) ≠ some [[[1, 1, 0]]] := by
  exact ⟨by with_unfolding_all rfl, by decide⟩

/-- C10: the polygon folds `multiple_union` and `multiple_intersection`
index the first list element and therefore fail (IndexError, modelled as
`none`) exactly on the empty list, never returning an identity polygon;
`get_combined_polygon` propagates the failure for both valid modes. -/
theorem polygon_folds_require_nonempty_input (polygons : List Region) :
    (multiple_union polygons = none ↔ polygons = []) ∧
    (multiple_intersection polygons = none ↔ polygons = []) ∧
    get_combined_polygon [] "intersect" = .error .indexError ∧
    get_combined_polygon [] "union" = .error .indexError := by
  refine ⟨?_, ?_, by rfl, by rfl⟩ <;>
    cases polygons <;> simp [multiple_union, multiple_intersection]

/-- C7: every pixel window returned by `pixel_bounds_from_polygon`
satisfies `colStart ≤ colEnd` and `rowStart ≤ rowEnd`: the final swap
normalises any inverted min/max pair, so an inverted window is never
returned. -/
theorem pixel_bounds_from_polygon_normalized (raster : Raster)
    (polygon : Region) (hw : raster.geoTransform.gt1 ≠ 0)
    (hh : raster.geoTransform.gt5 ≠ 0) :
    (pixel_bounds_from_polygon raster polygon).1 ≤
      (pixel_bounds_from_polygon raster polygon).2.1 ∧
    (pixel_bounds_from_polygon raster polygon).2.2.1 ≤
      (pixel_bounds_from_polygon raster polygon).2.2.2 := by
  unfold pixel_bounds_from_polygon
  dsimp only
  split_ifs <;> constructor <;> dsimp only <;> omega

/-- Witness for C7 at a concrete raster and polygon. -/
theorem pixel_bounds_from_polygon_normalized_witness :
    (pixel_bounds_from_polygon sampleRasterL (get_raster_bounds sampleRasterR)).1 ≤
      (pixel_bounds_from_polygon sampleRasterL (get_raster_bounds sampleRasterR)).2.1 ∧
    (pixel_bounds_from_polygon sampleRasterL (get_raster_bounds sampleRasterR)).2.2.1 ≤
      (pixel_bounds_from_polygon sampleRasterL (get_raster_bounds sampleRasterR)).2.2.2 :=
  pixel_bounds_from_polygon_normalized sampleRasterL
    (get_raster_bounds sampleRasterR) (by norm_num [sampleRasterL, sampleSquare])
    (by norm_num [sampleRasterL, sampleSquare])

/-- C6: `point_to_pixel_coordinates` floors (rather than rounds) both
coordinates and is a left inverse of the GDAL pixel-to-geographic affine
map on the pixel grid: for every axis-aligned geotransform with nonzero
pixel sizes and every integer pixel coordinate `(c, r)`, converting
through `gdal_affine` and back yields exactly `(c, r)`; moreover a point
displaced half a pixel in each direction (which rounding would move to
the next cell) still maps to `(c, r)`. -/
theorem point_to_pixel_floor_roundtrip (raster : Raster) (c r : ℤ)
    (oob_fail : Bool) (h2 : raster.geoTransform.gt2 = 0)
    (h4 : raster.geoTransform.gt4 = 0) (hw : raster.geoTransform.gt1 ≠ 0)
    (hh : raster.geoTransform.gt5 ≠ 0) :
    point_to_pixel_coordinates raster
        (.coords (gdal_affine raster.geoTransform c r).1
          (gdal_affine raster.geoTransform c r).2) oob_fail = (c, r) ∧
    point_to_pixel_coordinates raster
        (.coords
          ((gdal_affine raster.geoTransform c r).1 + raster.geoTransform.gt1 / 2)
          ((gdal_affine raster.geoTransform c r).2 + raster.geoTransform.gt5 / 2))
        oob_fail = (c, r) := by
  have ex : (raster.geoTransform.gt0 + (c : ℚ) * raster.geoTransform.gt1 +
      (r : ℚ) * raster.geoTransform.gt2 - raster.geoTransform.gt0) /
      raster.geoTransform.gt1 = (c : ℚ) := by
    rw [h2]
    field_simp
  have ey : (raster.geoTransform.gt3 + (c : ℚ) * raster.geoTransform.gt4 +
      (r : ℚ) * raster.geoTransform.gt5 - raster.geoTransform.gt3) /
      raster.geoTransform.gt5 = (r : ℚ) := by
    rw [h4]
    field_simp
  have ex2 : (raster.geoTransform.gt0 + (c : ℚ) * raster.geoTransform.gt1 +
      (r : ℚ) * raster.geoTransform.gt2 + raster.geoTransform.gt1 / 2 -
      raster.geoTransform.gt0) / raster.geoTransform.gt1 = (c : ℚ) + 1 / 2 := by
    rw [h2]
    field_simp
    ring
  have ey2 : (raster.geoTransform.gt3 + (c : ℚ) * raster.geoTransform.gt4 +
      (r : ℚ) * raster.geoTransform.gt5 + raster.geoTransform.gt5 / 2 -
      raster.geoTransform.gt3) / raster.geoTransform.gt5 = (r : ℚ) + 1 / 2 := by
    rw [h4]
    field_simp
    ring
  have hhalf : ∀ z : ℤ, ⌊(z : ℚ) + 1 / 2⌋ = z := by
    intro z
    rw [Int.floor_int_add]
    norm_num
  unfold point_to_pixel_coordinates gdal_affine PointInput.xGeo PointInput.yGeo
  dsimp only
  rw [ex, ey, ex2, ey2, Int.floor_intCast, Int.floor_intCast, hhalf, hhalf]
  exact ⟨rfl, rfl⟩

/-- Witness for C6 at the geotransform `(100, 10, 0, 500, 0, -10)` and
pixel `(3, 7)`. -/
theorem point_to_pixel_floor_roundtrip_witness :
    point_to_pixel_coordinates (sampleSquare 100)
        (.coords (gdal_affine (sampleSquare 100).geoTransform 3 7).1
          (gdal_affine (sampleSquare 100).geoTransform 3 7).2) true = (3, 7) ∧
    point_to_pixel_coordinates (sampleSquare 100)
        (.coords
          ((gdal_affine (sampleSquare 100).geoTransform 3 7).1 +
            (sampleSquare 100).geoTransform.gt1 / 2)
          ((gdal_affine (sampleSquare 100).geoTransform 3 7).2 +
            (sampleSquare 100).geoTransform.gt5 / 2)) true = (3, 7) :=
  point_to_pixel_floor_roundtrip (sampleSquare 100) 3 7 true
    (by with_unfolding_all rfl) (by with_unfolding_all rfl)
    (by norm_num [sampleSquare]) (by norm_num [sampleSquare])

/-- C9: `point_to_pixel_coordinates` never reads its `oob_fail` parameter:
the result is the same for any two values of it, always equals the floored
affine inverse for every duck-typed point form, and no out-of-bounds
condition is ever signalled — for a north-up geotransform, a point
strictly outside the raster extent simply yields a column or row index
that is negative or at least the raster's width or height. -/
theorem point_to_pixel_ignores_oob_fail (raster : Raster) (point : PointInput)
    (b1 b2 : Bool) :
    point_to_pixel_coordinates raster point b1 =
      point_to_pixel_coordinates raster point b2 ∧
    point_to_pixel_coordinates raster point b1 =
      (⌊(point.xGeo - raster.geoTransform.gt0) / raster.geoTransform.gt1⌋,
       ⌊(point.yGeo - raster.geoTransform.gt3) / raster.geoTransform.gt5⌋) ∧
    (0 < raster.geoTransform.gt1 → raster.geoTransform.gt5 < 0 →
      (point.xGeo < raster.geoTransform.gt0 ∨
       raster.geoTransform.gt0 +
         raster.geoTransform.gt1 * (raster.rasterXSize : ℚ) < point.xGeo ∨
       raster.geoTransform.gt3 < point.yGeo ∨
       point.yGeo < raster.geoTransform.gt3 +
         raster.geoTransform.gt5 * (raster.rasterYSize : ℚ)) →
      ((point_to_pixel_coordinates raster point b1).1 < 0 ∨
       (raster.rasterXSize : ℤ) ≤ (point_to_pixel_coordinates raster point b1).1 ∨
       (point_to_pixel_coordinates raster point b1).2 < 0 ∨
       (raster.rasterYSize : ℤ) ≤ (point_to_pixel_coordinates raster point b1).2)) := by
  refine ⟨rfl, rfl, ?_⟩
  intro h1 h5 hout
  unfold point_to_pixel_coordinates
  dsimp only
  rcases hout with hx | hx | hy | hy
  · left
    rw [Int.floor_lt]
    push_cast
    exact div_neg_of_neg_of_pos (by linarith) h1
  · right; left
    rw [Int.le_floor]
    push_cast
    rw [le_div_iff₀ h1]
    linarith [mul_comm raster.geoTransform.gt1 ((raster.rasterXSize : ℚ))]
  · right; right; left
    rw [Int.floor_lt]
    push_cast
    exact div_neg_of_pos_of_neg (by linarith) h5
  · right; right; right
    rw [Int.le_floor]
    push_cast
    rw [le_div_iff_of_neg h5]
    linarith [mul_comm raster.geoTransform.gt5 ((raster.rasterYSize : ℚ))]

/-- Witness for C9: a WKT point at `(-5, 3)`, outside the 10×10 raster
with origin `(0, 10)`, yields the same result for both `oob_fail` values
and an out-of-range pixel index. -/
theorem point_to_pixel_ignores_oob_fail_witness :
    point_to_pixel_coordinates (sampleSquare 0) (.wkt (-5) 3) true =
      point_to_pixel_coordinates (sampleSquare 0) (.wkt (-5) 3) false ∧
    ((point_to_pixel_coordinates (sampleSquare 0) (.wkt (-5) 3) true).1 < 0 ∨
     ((sampleSquare 0).rasterXSize : ℤ) ≤
       (point_to_pixel_coordinates (sampleSquare 0) (.wkt (-5) 3) true).1 ∨
     (point_to_pixel_coordinates (sampleSquare 0) (.wkt (-5) 3) true).2 < 0 ∨
     ((sampleSquare 0).rasterYSize : ℤ) ≤
       (point_to_pixel_coordinates (sampleSquare 0) (.wkt (-5) 3) true).2) := by
  have h := point_to_pixel_ignores_oob_fail (sampleSquare 0) (.wkt (-5) 3) true false
  refine ⟨h.1, h.2.2 ?_ ?_ ?_⟩
  · norm_num [sampleSquare]
  · norm_num [sampleSquare]
  · left
    norm_num [sampleSquare, PointInput.xGeo]

/-- A Python `int()` result known to be at least 1 came from a nonnegative
quotient, so it is the floor of that quotient. -/
theorem pyInt_pos_eq_floor (q : ℚ) (h : 1 ≤ pyInt q) : pyInt q = ⌊q⌋ := by
  unfold pyInt at h ⊢
  split_ifs at h ⊢ with hq
  · rfl
  · exfalso
    push_neg at hq
    have hc : ⌈q⌉ ≤ 0 := Int.ceil_le.mpr (by exact_mod_cast hq.le)
    omega

/-- C2 (amended): the planned output dimensions of
`create_new_image_from_polygon` are the Python `int` truncation — for
these nonnegative quotients, the floor — of extent over resolution, not
the ceiling; floor and ceiling agree only when the resolution divides the
extent exactly. -/
theorem create_new_image_dims_floor (polygon : Region) (x_res y_res : ℚ)
    (bands : ℕ) (projection : String) (out : Raster)
    (h : create_new_image_from_polygon polygon x_res y_res bands projection =
      .ok out) :
    (out.rasterXSize : ℤ) =
      ⌊((regionEnvelope polygon).2.1 - (regionEnvelope polygon).1) / x_res⌋ ∧
    (out.rasterYSize : ℤ) =
      ⌊((regionEnvelope polygon).2.2.2 - (regionEnvelope polygon).2.2.1) / y_res⌋ := by
  unfold create_new_image_from_polygon at h
  dsimp only at h
  by_cases hcond : final_width_pixels polygon x_res < 1 ∨
      final_height_pixels polygon y_res < 1 ∨ bands < 1
  · rw [if_pos hcond] at h
    exact absurd h (by simp)
  · rw [if_neg hcond] at h
    push_neg at hcond
    obtain ⟨hw, hh, _⟩ := hcond
    unfold final_width_pixels at hw
    unfold final_height_pixels at hh
    dsimp only at hw hh
    injection h with h
    subst h
    dsimp only
    unfold final_width_pixels final_height_pixels
    dsimp only
    constructor
    · rw [Int.toNat_of_nonneg (by omega)]
      exact pyInt_pos_eq_floor _ (by omega)
    · rw [Int.toNat_of_nonneg (by omega)]
      exact pyInt_pos_eq_floor _ (by omega)

/-- The raster `create_new_image_from_polygon` produces for the rectangle
(0,0)–(10,4) at resolution 2×2 with one band. -/
def sampleDimsOut : Raster :=
  { rasterXSize := 5
    rasterYSize := 2
    rasterCount := 1
    geoTransform := ⟨0, 2, 0, 4, 0, -2⟩
    projection := "P"
    buffer := [[[0, 0, 0, 0, 0], [0, 0, 0, 0, 0]]] }

/-- Witness for C2 (amended) on the rectangle (0,0)–(10,4) at resolution
2×2. -/
theorem create_new_image_dims_floor_witness :
    ((sampleDimsOut.rasterXSize : ℤ) =
      ⌊((regionEnvelope [⟨0, 0, 10, 4⟩]).2.1 - (regionEnvelope [⟨0, 0, 10, 4⟩]).1) / 2⌋ ∧
    (sampleDimsOut.rasterYSize : ℤ) =
      ⌊((regionEnvelope [⟨0, 0, 10, 4⟩]).2.2.2 -
        (regionEnvelope [⟨0, 0, 10, 4⟩]).2.2.1) / 2⌋) :=
  create_new_image_dims_floor [⟨0, 0, 10, 4⟩] 2 2 1 "P" sampleDimsOut
    (by with_unfolding_all rfl)

/-- Counterexample to C2 as stated: for the rectangle (0,0)–(3,3) at
resolution 2×2 the planned width is `int(3/2) = 1`, whereas
`ceil(3/2) = 2`; the claimed ceiling formula does not hold. -/
theorem create_new_image_dims_not_ceil :
    final_width_pixels [⟨0, 0, 3, 3⟩] 2 = 1 ∧
    (create_new_image_from_polygon [⟨0, 0, 3, 3⟩] 2 2 1 "P").toOption.map
      Raster.rasterXSize = some 1 ∧
    ⌈((regionEnvelope [⟨0, 0, 3, 3⟩]).2.1 - (regionEnvelope [⟨0, 0, 3, 3⟩]).1) /
      (2 : ℚ)⌉ = 2 ∧
    (1 : ℤ) ≠ 2 := by
  refine ⟨by with_unfolding_all rfl, by with_unfolding_all rfl, ?_, by decide⟩
  with_unfolding_all rfl

/-- `create_new_image_from_polygon` on the empty polygon always fails: the
empty envelope is `(0,0,0,0)`, both planned dimensions are `int(0) = 0`,
and `driver.Create` rejects zero-size rasters. -/
theorem create_new_image_empty_polygon_fails (x_res y_res : ℚ) (bands : ℕ)
    (projection : String) :
    create_new_image_from_polygon [] x_res y_res bands projection =
      .error .createFailed := by
  unfold create_new_image_from_polygon final_width_pixels final_height_pixels
    regionEnvelope pyInt
  norm_num

/-- C3 (amended): stacking two rasters with disjoint bounding polygons in
intersect mode produces no output raster — the empty combined polygon
yields zero planned dimensions and raster creation fails — but the
failure is the generic creation failure, not a dedicated `NoOverlap`
signal (the source defines none). -/
theorem stack_images_disjoint_no_output (r1 r2 : Raster)
    (h : regionIntersection (get_raster_bounds r1) (get_raster_bounds r2) = []) :
    stack_images [r1, r2] "intersect" = .error .createFailed ∧
    stack_images [r1, r2] "intersect" ≠ .error .noOverlap := by
  have hg : get_combined_polygon [r1, r2] "intersect" = .ok [] := by
    unfold get_combined_polygon multiple_intersection
    simp [h, regionSimplify0]
  have hmain : stack_images [r1, r2] "intersect" = .error .createFailed := by
    unfold stack_images
    rw [hg]
    dsimp only
    rw [create_new_image_empty_polygon_fails]
  refine ⟨hmain, ?_⟩
  rw [hmain]
  simp

/-- Witness for C3 (amended): the two concrete disjoint 10×10 rasters. -/
theorem stack_images_disjoint_no_output_witness :
    stack_images [sampleRasterL, sampleRasterR] "intersect" =
      .error .createFailed ∧
    stack_images [sampleRasterL, sampleRasterR] "intersect" ≠
      .error .noOverlap :=
  stack_images_disjoint_no_output sampleRasterL sampleRasterR
    (by with_unfolding_all rfl)

/-- Counterexample to C3 as stated: for the concrete disjoint pair the
result is the generic creation failure, which is not a `NoOverlap`
signal. -/
theorem stack_images_disjoint_not_nooverlap :
    stack_images [sampleRasterL, sampleRasterR] "intersect" =
      .error .createFailed ∧
    CoreError.createFailed ≠ CoreError.noOverlap := by
  exact ⟨by with_unfolding_all rfl, by decide⟩

/-- A failing `get_combined_polygon` fails only with the `IndexError` of
the empty fold or with the invalid-mode exception. -/
theorem get_combined_polygon_error_or (rasters : List Raster) (mode : String)
    (e : CoreError) (h : get_combined_polygon rasters mode = .error e) :
    e = .indexError ∨ e = .invalidGeometryMode := by
  unfold get_combined_polygon at h
  dsimp only at h
  split_ifs at h
  · cases hm : multiple_intersection (rasters.map get_raster_bounds) with
    | none => rw [hm] at h; simp at h; exact Or.inl h.symm
    | some g => rw [hm] at h; simp at h
  · cases hm : multiple_union (rasters.map get_raster_bounds) with
    | none => rw [hm] at h; simp at h; exact Or.inl h.symm
    | some g => rw [hm] at h; simp at h
  · simp at h
    exact Or.inr h.symm

/-- A failing `create_new_image_from_polygon` fails only with the
creation failure. -/
theorem create_new_image_error_eq (polygon : Region) (x_res y_res : ℚ)
    (bands : ℕ) (projection : String) (e : CoreError)
    (h : create_new_image_from_polygon polygon x_res y_res bands projection =
      .error e) : e = .createFailed := by
  unfold create_new_image_from_polygon at h
  dsimp only at h
  by_cases hcond : final_width_pixels polygon x_res < 1 ∨
      final_height_pixels polygon y_res < 1 ∨ bands < 1
  · rw [if_pos hcond] at h
    simp at h
    exact h.symm
  · rw [if_neg hcond] at h
    simp at h

/-- C8: `stack_images` raises its `StackImagesException` (the spec's
`DimensionMismatch`) exactly when fewer than two rasters are supplied;
with two or more inputs that error is never raised, whatever else
happens. -/
theorem stack_images_too_few_iff (rasters : List Raster) (mode : String) :
    (∃ msg, stack_images rasters mode = .error (.stackImagesException msg)) ↔
      rasters.length ≤ 1 := by
  constructor
  · rintro ⟨msg, h⟩
    by_contra hlen
    push_neg at hlen
    rcases rasters with _ | ⟨r0, _ | ⟨r1, rest⟩⟩
    · simp at hlen
    · simp at hlen
    · unfold stack_images at h
      dsimp only at h
      rcases hg : get_combined_polygon (r0 :: r1 :: rest) mode with e | g
      · rw [hg] at h
        dsimp only at h
        rcases get_combined_polygon_error_or _ _ _ hg with he | he <;>
          (rw [he] at h; exact absurd h (by simp))
      · rw [hg] at h
        dsimp only at h
        rcases hc : create_new_image_from_polygon g r0.geoTransform.gt1
            (r0.geoTransform.gt5 * -1)
            ((List.map Raster.rasterCount (r0 :: r1 :: rest)).sum)
            r0.projection with e | o
        · rw [hc] at h
          dsimp only at h
          rw [create_new_image_error_eq _ _ _ _ _ _ hc] at h
          exact absurd h (by simp)
        · rw [hc] at h
          dsimp only at h
          exact absurd h (by simp)
  · intro hlen
    rcases rasters with _ | ⟨r0, _ | ⟨r1, rest⟩⟩
    · exact ⟨"stack_images requires at least two input images", rfl⟩
    · exact ⟨"stack_images requires at least two input images", rfl⟩
    · simp at hlen

/-- The stacking loop never changes the output raster's band count — only
its buffer is overwritten. -/
theorem stackLoop_fst_rasterCount (rs : List Raster) (o : Raster) (c : Region)
    (pl : ℕ) (ops : List CopyOp) :
    (stackLoop rs o c pl ops).1.rasterCount = o.rasterCount := by
  induction rs generalizing o pl ops with
  | nil => rfl
  | cons r rest ih =>
    unfold stackLoop
    dsimp only
    rw [ih]

/-- The destination band offsets the stacking loop records are the prior
offsets followed by the accumulated band counts shifted by the incoming
`present_layer`. -/
theorem stackLoop_snd_offsets (rs : List Raster) (o : Raster) (c : Region)
    (pl : ℕ) (ops : List CopyOp) :
    (stackLoop rs o c pl ops).2.map CopyOp.destBandStart =
      ops.map CopyOp.destBandStart ++
        (bandOffsets (rs.map Raster.rasterCount)).map (fun x => pl + x) := by
  induction rs generalizing o pl ops with
  | nil => simp [stackLoop, bandOffsets]
  | cons r rest ih =>
    unfold stackLoop
    dsimp only
    rw [ih]
    simp only [List.map_cons, bandOffsets, List.map_append, List.map_map,
      List.append_assoc, List.map_cons, List.cons_append, List.nil_append]
    simp [Function.comp_def, add_assoc]

/-- A successfully created raster has exactly the requested band count. -/
theorem create_new_image_ok_rasterCount (polygon : Region) (x_res y_res : ℚ)
    (bands : ℕ) (projection : String) (out : Raster)
    (h : create_new_image_from_polygon polygon x_res y_res bands projection =
      .ok out) : out.rasterCount = bands := by
  unfold create_new_image_from_polygon at h
  dsimp only at h
  by_cases hcond : final_width_pixels polygon x_res < 1 ∨
      final_height_pixels polygon y_res < 1 ∨ bands < 1
  · rw [if_pos hcond] at h
    exact absurd h (by simp)
  · rw [if_neg hcond] at h
    injection h with h
    subst h
    rfl

/-- C5: whenever `stack_images` produces an output, the output raster's
band count is the sum of the inputs' band counts, and the recorded
destination band offsets accumulate in sequence order: the first raster's
bands start at offset 0 and each subsequent raster's bands start at the
sum of all prior rasters' band counts. -/
theorem stack_images_band_accumulation (rasters : List Raster) (mode : String)
    (out : Raster) (ops : List CopyOp)
    (h : stack_images rasters mode = .ok (out, ops)) :
    out.rasterCount = (rasters.map Raster.rasterCount).sum ∧
    ops.map CopyOp.destBandStart = bandOffsets (rasters.map Raster.rasterCount) := by
  rcases rasters with _ | ⟨r0, _ | ⟨r1, rest⟩⟩
  · exact absurd h (by simp [stack_images])
  · exact absurd h (by simp [stack_images])
  · unfold stack_images at h
    dsimp only at h
    rcases hg : get_combined_polygon (r0 :: r1 :: rest) mode with e | g
    · rw [hg] at h
      exact absurd h (by simp)
    · rw [hg] at h
      dsimp only at h
      rcases hc : create_new_image_from_polygon g r0.geoTransform.gt1
          (r0.geoTransform.gt5 * -1)
          ((List.map Raster.rasterCount (r0 :: r1 :: rest)).sum)
          r0.projection with e | o
      · rw [hc] at h
        exact absurd h (by simp)
      · rw [hc] at h
        dsimp only at h
        injection h with h
        have hout : (stackLoop (r0 :: r1 :: rest) o g 0 []).1 = out := by
          rw [h]
        have hops : (stackLoop (r0 :: r1 :: rest) o g 0 []).2 = ops := by
          rw [h]
        constructor
        · rw [← hout, stackLoop_fst_rasterCount,
            create_new_image_ok_rasterCount _ _ _ _ _ _ hc]
        · rw [← hops, stackLoop_snd_offsets]
          simp

/-- The raster `stack_images` produces for two overlapping single-band
2×2 tiles. -/
def sampleStackOut : Raster :=
  { rasterXSize := 2
    rasterYSize := 2
    rasterCount := 2
    geoTransform := ⟨0, 1, 0, 2, 0, -1⟩
    projection := "EPSG:32736"
    buffer := [[[3, 3], [3, 3]], [[5, 5], [5, 5]]] }

/-- The copy trace `stack_images` records for the same two tiles. -/
def sampleStackOps : List CopyOp :=
  [{ destBandStart := 0
     bandCount := 1
     destWindow := (0, 2, 0, 2)
     srcWindow := (0, 2, 0, 2) },
   { destBandStart := 1
     bandCount := 1
     destWindow := (0, 2, 0, 2)
     srcWindow := (0, 2, 0, 2) }]

/-- Witness for C5: stacking two overlapping single-band tiles yields a
two-band raster with offsets 0 and 1. -/
theorem stack_images_band_accumulation_witness :
    sampleStackOut.rasterCount =
      (([sampleTile 3, sampleTile 5]).map Raster.rasterCount).sum ∧
    sampleStackOps.map CopyOp.destBandStart =
      bandOffsets (([sampleTile 3, sampleTile 5]).map Raster.rasterCount) :=
  stack_images_band_accumulation [sampleTile 3, sampleTile 5] "intersect"
    sampleStackOut sampleStackOps (by with_unfolding_all rfl)

/-- A failing mask-combination loop fails only on an invalid
`combination_func`. -/
theorem combineMasksLoop_error_eq (masks : List Raster) (out_mask : Raster)
    (combined : Region) (f : String) (e : CoreError)
    (h : combineMasksLoop masks out_mask combined f = .error e) :
    e = .invalidCombinationFunc := by
  induction masks generalizing out_mask with
  | nil => exact absurd h (by simp [combineMasksLoop])
  | cons m rest ih =>
    unfold combineMasksLoop at h
    dsimp only at h
    split_ifs at h
    · exact ih _ h
    · exact ih _ h
    · simp at h
      exact h.symm

/-- A failing `stack_images` fails only with the too-few-rasters
exception, the empty-fold `IndexError`, the invalid-mode exception or the
creation failure. -/
theorem stack_images_error_classes (rasters : List Raster) (mode : String)
    (e : CoreError) (h : stack_images rasters mode = .error e) :
    (∃ msg, e = .stackImagesException msg) ∨ e = .indexError ∨
      e = .invalidGeometryMode ∨ e = .createFailed := by
  rcases rasters with _ | ⟨r0, _ | ⟨r1, rest⟩⟩
  · simp [stack_images] at h
    exact Or.inl ⟨_, h.symm⟩
  · simp [stack_images] at h
    exact Or.inl ⟨_, h.symm⟩
  · unfold stack_images at h
    dsimp only at h
    rcases hg : get_combined_polygon (r0 :: r1 :: rest) mode with e1 | g
    · rw [hg] at h
      dsimp only at h
      injection h with h
      subst h
      rcases get_combined_polygon_error_or _ _ _ hg with he | he <;> simp [he]
    · rw [hg] at h
      dsimp only at h
      rcases hc : create_new_image_from_polygon g r0.geoTransform.gt1
          (r0.geoTransform.gt5 * -1)
          ((List.map Raster.rasterCount (r0 :: r1 :: rest)).sum)
          r0.projection with e2 | o
      · rw [hc] at h
        dsimp only at h
        injection h with h
        subst h
        simp [create_new_image_error_eq _ _ _ _ _ _ hc]
      · rw [hc] at h
        exact absurd h (by simp)

/-- A failing `combine_masks` fails only with the empty-fold `IndexError`,
the invalid-mode exception, the creation failure or an invalid
combination function. -/
theorem combine_masks_error_classes (masks : List Raster) (f g : String)
    (e : CoreError) (h : combine_masks masks f g = .error e) :
    e = .indexError ∨ e = .invalidGeometryMode ∨ e = .createFailed ∨
      e = .invalidCombinationFunc := by
  rcases masks with _ | ⟨m0, rest⟩
  · simp [combine_masks] at h
    simp [h.symm]
  · unfold combine_masks at h
    dsimp only at h
    rcases hg : get_combined_polygon (m0 :: rest) g with e1 | poly
    · rw [hg] at h
      dsimp only at h
      injection h with h
      subst h
      rcases get_combined_polygon_error_or _ _ _ hg with he | he <;> simp [he]
    · rw [hg] at h
      dsimp only at h
      rcases hc : create_new_image_from_polygon poly m0.geoTransform.gt1
          (m0.geoTransform.gt5 * -1) 1 m0.projection with e2 | o
      · rw [hc] at h
        dsimp only at h
        injection h with h
        subst h
        simp [create_new_image_error_eq _ _ _ _ _ _ hc]
      · rw [hc] at h
        dsimp only at h
        simp [combineMasksLoop_error_eq _ _ _ _ _ h]

/-- A failing `stack_old_and_new_images` inherits a failure class of
`stack_images` or `combine_masks`; it never raises the empty-directory
exception. -/
theorem stack_old_and_new_error_classes (old_image new_image : TimedRaster)
    (flag : Bool) (e : CoreError)
    (h : stack_old_and_new_images old_image new_image flag = .error e) :
    (∃ msg, e = .stackImagesException msg) ∨ e = .indexError ∨
      e = .invalidGeometryMode ∨ e = .createFailed ∨
      e = .invalidCombinationFunc := by
  unfold stack_old_and_new_images at h
  dsimp only at h
  rcases hs : stack_images [old_image.raster, new_image.raster] "intersect"
      with e1 | o
  · rw [hs] at h
    dsimp only at h
    injection h with h
    subst h
    rcases stack_images_error_classes _ _ _ hs with he | he | he | he <;>
      simp [he]
  · rw [hs] at h
    dsimp only at h
    by_cases hflag : flag = true
    · rw [if_pos hflag] at h
      rcases hm : combine_masks [old_image.mask, new_image.mask] "or"
          "intersect" with e2 | o2
      · rw [hm] at h
        dsimp only at h
        injection h with h
        subst h
        rcases combine_masks_error_classes _ _ _ _ hm with he | he | he | he <;>
          simp [he]
      · rw [hm] at h
        exact absurd h (by simp)
    · rw [if_neg hflag] at h
      exact absurd h (by simp)

/-- A failing stacking loop of `create_new_stacks` inherits a failure
class of `stack_old_and_new_images`; it never raises the empty-directory
exception. -/
theorem stacksBuildLoop_error_classes (to_be_stacked : List TimedRaster)
    (listing : List String) (acc : List String) (latest : TimedRaster)
    (e : CoreError)
    (h : stacksBuildLoop to_be_stacked listing acc latest = .error e) :
    (∃ msg, e = .stackImagesException msg) ∨ e = .indexError ∨
      e = .invalidGeometryMode ∨ e = .createFailed ∨
      e = .invalidCombinationFunc := by
  induction to_be_stacked generalizing acc with
  | nil => exact absurd h (by simp [stacksBuildLoop])
  | cons image rest ih =>
    unfold stacksBuildLoop at h
    by_cases hmem : listing.contains image.name = true
    · rw [if_pos hmem] at h
      exact absurd h (by simp)
    · rw [if_neg hmem] at h
      rcases hs : stack_old_and_new_images image latest true with e1 | o
      · rw [hs] at h
        dsimp only at h
        injection h with h
        subst h
        exact stack_old_and_new_error_classes _ _ _ _ hs
      · rw [hs] at h
        dsimp only at h
        exact ih _ h

/-- C4 (amended): `create_new_stacks` raises its empty-directory exception
(the spec's `EmptyInputSet`) exactly when the image directory contains no
rasters at all; in particular, when only the newest raster exists and
there are zero historical rasters, it does not raise that error. -/
theorem create_new_stacks_error_iff_dir_empty (safe_files : List TimedRaster)
    (stack_dir_listing : List String) (threshold : ℚ) :
    (∃ msg, create_new_stacks safe_files stack_dir_listing threshold =
      .error (.createNewStacksException msg)) ↔ safe_files = [] := by
  constructor
  · rintro ⟨msg, h⟩
    by_contra hne
    unfold create_new_stacks at h
    rw [if_neg (by simpa using hne)] at h
    rcases hs : sort_by_timestamp safe_files with _ | ⟨latest, older⟩ <;>
      rw [hs] at h
    · simp at h
    · dsimp only at h
      rcases stacksBuildLoop_error_classes _ _ _ _ _ h with ⟨m2, hm⟩ | hm | hm |
        hm | hm <;> simp at hm
  · rintro rfl
    exact ⟨"image_dir is empty", rfl⟩

/-- Counterexample to C4 as stated: with exactly one raster in the image
directory there are zero historical rasters, yet `create_new_stacks`
succeeds with an empty result rather than raising `EmptyInputSet`. -/
theorem create_new_stacks_single_raster_ok :
    create_new_stacks [sampleTimed] [] 100 = .ok [] := by
  simp [create_new_stacks, sort_by_timestamp, stacksSelectLoop, stacksBuildLoop]

/-- Witness for C4 (amended) at the singleton input. -/
theorem create_new_stacks_error_iff_dir_empty_witness :
    ¬(∃ msg, create_new_stacks [sampleTimed] [] 100 =
      .error (.createNewStacksException msg)) := by
  rw [create_new_stacks_error_iff_dir_empty [sampleTimed] [] 100]
  simp
